import Mathlib

/-!
Verification of the entity-subscription routing and result-aggregation engine
(`src/sentry/snuba/entity_subscription.py`).

Modelling conventions:
* Python numeric values are modelled as exact rationals (ℚ); `None` and string
  values get their own constructors of `Val`.
* A result row (Python `Dict[str, Any]`) is an association list with unique
  keys; `rowGet` models `row[k]` / `"k" in row`, `setKey` models in-place
  assignment `row[k] = v`.
* Fallible code returns `Except SubErr`; uncaught Python exceptions
  (`KeyError`, `AssertionError`, `TypeError`) and the module's own
  `InvalidQuerySubscription` / `UnsupportedQuerySubscription` are `SubErr`
  constructors.
* Telemetry (`metrics.incr`) is modelled as an emitted list of counter names,
  in emission order; the format-tagged counter is rendered as
  `name ++ ":format=" ++ v`.
* The external tag-resolver collaborator is a parameter: `rr : Val → Option
  String` models `reverse_resolve_tag_value` (with `none` standing for a falsy
  return), and `rtk : ℤ → String → String` models `resolve_tag_key`.
-/

/-- A Python value as it occurs in result rows: `None`, a number (modelled as
an exact rational), or a string. -/
inductive Val where
  | null : Val
  | num : ℚ → Val
  | str : String → Val
deriving DecidableEq, Repr

/-- A result row: `Dict[str, Any]` as an association list with unique keys. -/
abbrev Row := List (String × Val)

/-- `rowGet row k` models Python `row[k]` lookup (`none` = `KeyError`) and
`k in row` (membership = `isSome`). -/
def rowGet : Row → String → Option Val
  | [], _ => none
  | (k', v) :: t, k => if k' = k then some v else rowGet t k

/-- `setKey row k v` models the dict assignment `row[k] = v`: replaces the
binding of `k` when present, appends it otherwise. -/
def setKey : Row → String → Val → Row
  | [], k, v => [(k, v)]
  | (k', v') :: t, k, v => if k' = k then (k, v) :: t else (k', v') :: setKey t k v

/-- The error outcomes of the module: the two subscription errors raised by the
source, plus the uncaught Python exceptions its code can raise. -/
inductive SubErr where
  | unsupportedQuerySubscription : SubErr
  | invalidQuerySubscription : SubErr
  | assertionError : SubErr
  | keyError : SubErr
  | typeError : SubErr
deriving DecidableEq, Repr

/-- Modelled from the spec: the `QueryDatasets` enum (`sentry.snuba.models` is
outside the excerpt) with the four datasets the spec's data model lists:
Events, Transactions, Sessions, Metrics. -/
inductive QueryDatasets where
  | events : QueryDatasets
  | transactions : QueryDatasets
  | sessions : QueryDatasets
  | metrics : QueryDatasets
deriving DecidableEq, Repr

/-- Modelled from the spec: the `EntityKey` enum (`sentry.snuba.dataset` is
outside the excerpt) with the five entity kinds the spec's data model lists. -/
inductive EntityKey where
  | Events : EntityKey
  | Transactions : EntityKey
  | Sessions : EntityKey
  | MetricsCounters : EntityKey
  | MetricsSets : EntityKey
deriving DecidableEq, Repr

/-- Modelled from the spec: the canonical aggregate column name constant
(`sentry.constants` is outside the excerpt); the spec names it
`crash_rate_alert_aggregate_value`. -/
def CRASH_RATE_ALERT_AGGREGATE_ALIAS : String := "crash_rate_alert_aggregate_value"

/-- Modelled from the spec: the session-count alias constant
(`sentry.constants` is outside the excerpt); its exact text is irrelevant to
the claims, which only constrain the `identity(<token>)` part. -/
def CRASH_RATE_ALERT_SESSION_COUNT_ALIAS : String := "crash_rate_alert_session_count"

/-- Round a rational to the nearest integer, ties to even — the behaviour of
Python's `round` on an exact value. -/
def roundHalfEven (q : ℚ) : ℤ :=
  let f : ℤ := ⌊q⌋
  if q - (f : ℚ) < 1 / 2 then f
  else if (1 : ℚ) / 2 < q - (f : ℚ) then f + 1
  else if f % 2 = 0 then f else f + 1

/-- Python `round(q, 3)` on an exact rational value. -/
def pyRound3 (q : ℚ) : ℚ := (roundHalfEven (q * 1000) : ℚ) / 1000

/-- Does the second character list start with the first? (Used to model both
regex literal matching and substring search.) -/
def tokLeads : List Char → List Char → Bool
  | [], _ => true
  | _ :: _, [] => false
  | a :: as, b :: bs => if a = b then tokLeads as bs else false

/-- Consume an exact literal from the front of the input, returning the rest
(`none` on mismatch). -/
def chomp : List Char → List Char → Option (List Char)
  | [], l => some l
  | _ :: _, [] => none
  | p :: ps, c :: cs => if p = c then chomp ps cs else none

/-- Consume `[ ]*`: zero or more literal space characters. -/
def dropSpaces : List Char → List Char
  | ' ' :: t => dropSpaces t
  | l => l

/-- One regex alternation step: try each literal alternative in order at the
current position, returning the matched text and the rest.  Faithful to the
source's alternations, whose alternatives start with distinct characters, so
no backtracking into a chosen alternative is ever needed. -/
def chompAlt : List (List Char) → List Char → Option (String × List Char)
  | [], _ => none
  | a :: as, l =>
    match chomp a l with
    | some rest => some (String.mk a, rest)
    | none => chompAlt as l

/-- `re.match` of `CRASH_RATE_ALERT_AGGREGATE_RE`
(`^percentage\([ ]*(sessions_crashed|users_crashed)[ ]*\,[ ]*(sessions|users)[ ]*\)`)
against an aggregate string: anchored at the start, trailing text allowed,
returning the two capture groups on success. -/
def parseCrashRateAggregateChars (l : List Char) : Option (String × String) := do
  let l ← chomp "percentage(".data l
  let l := dropSpaces l
  let (g1, l) ← chompAlt ["sessions_crashed".data, "users_crashed".data] l
  let l := dropSpaces l
  let l ← chomp [','] l
  let l := dropSpaces l
  let (g2, l) ← chompAlt ["sessions".data, "users".data] l
  let l := dropSpaces l
  let _ ← chomp [')'] l
  pure (g1, g2)

/-- The crash-free percentage pattern match on an aggregate string. -/
def parseCrashRateAggregate (aggregate : String) : Option (String × String) :=
  parseCrashRateAggregateChars aggregate.data

/-- `map_aggregate_to_entity_key` from the source: Events/Transactions map
directly; Sessions and Metrics require the crash-rate pattern, Metrics routing
on capture group 2; everything else raises `UnsupportedQuerySubscription`. -/
def map_aggregate_to_entity_key (dataset : QueryDatasets) (aggregate : String) :
    Except SubErr EntityKey :=
  match dataset with
  | .events => .ok .Events
  | .transactions => .ok .Transactions
  | .sessions =>
    match parseCrashRateAggregate aggregate with
    | none => .error .unsupportedQuerySubscription
    | some _ => .ok .Sessions
  | .metrics =>
    match parseCrashRateAggregate aggregate with
    | none => .error .unsupportedQuerySubscription
    | some (_, g2) =>
      if g2 = "sessions" then .ok .MetricsCounters else .ok .MetricsSets

/-- `apply_dataset_query_conditions` from the source: prepends the event-type
clause unless the dataset is Transactions outside discover mode or no clause
applies.  A pure function, modelling Python truthiness of `event_types`
(`None` and `[]` are both falsy); event types are represented by their names
(the source only uses `event_type.name.lower()`). -/
def apply_dataset_query_conditions (dataset : QueryDatasets) (query : String)
    (event_types : Option (List String)) (discover : Bool) : String :=
  if discover = false ∧ dataset = .transactions then query
  else
    let conds : Option String :=
      match event_types with
      | some (h :: t) =>
        some (String.intercalate " OR " ((h :: t).map (fun n => "event.type:" ++ n.toLower)))
      | _ =>
        match dataset with
        | .events => some "event.type:error"
        | .transactions => some "event.type:transaction"
        | _ => none
    match conds with
    | none => query
    | some c => if query = "" then c else "(" ++ c ++ ") AND (" ++ query ++ ")"

/-- The `_EntitySpecificParams` TypedDict: both keys optional.  `none` at the
outer `Option` models passing `extra_fields=None`; `some ⟨none, none⟩` models
the empty dict `{}` (both are falsy in Python). -/
structure ExtraFields where
  org_id : Option ℤ
  event_types : Option (List String)
deriving DecidableEq, Repr

/-- Python's `not extra_fields or "org_id" not in extra_fields` reduced to the
extracted organization id: `none` exactly when that condition is true. -/
def extraOrgId : Option ExtraFields → Option ℤ
  | none => none
  | some f => f.org_id

/-- State of a constructed `EventsEntitySubscription` /
`TransactionsEntitySubscription` (fields set by `__init__`). -/
structure EventsSub where
  aggregate : String
  event_types : Option (List String)
deriving DecidableEq, Repr

/-- State of a constructed `SessionsEntitySubscription`. -/
structure SessionsSub where
  aggregate : String
  org_id : ℤ
deriving DecidableEq, Repr

/-- State of a constructed `BaseMetricsEntitySubscription` subclass:
`session_status` caches `resolve_tag_key(org_id, "session.status")`. -/
structure MetricsSub where
  aggregate : String
  time_window : ℤ
  org_id : ℤ
  session_status : String
deriving DecidableEq, Repr

/-- `BaseEventsAndTransactionEntitySubscription.__init__`: never fails;
`event_types` is read from `extra_fields` when that dict is truthy. -/
def BaseEventsAndTransactionEntitySubscription.create (aggregate : String)
    (_time_window : ℤ) (extra_fields : Option ExtraFields) : EventsSub :=
  { aggregate := aggregate
    event_types :=
      match extra_fields with
      | none => none
      | some f => f.event_types }

/-- `SessionsEntitySubscription.__init__`: raises
`InvalidQuerySubscription` when `extra_fields` is falsy or lacks `org_id`. -/
def SessionsEntitySubscription.create (aggregate : String) (_time_window : ℤ)
    (extra_fields : Option ExtraFields) : Except SubErr SessionsSub :=
  match extraOrgId extra_fields with
  | none => .error .invalidQuerySubscription
  | some org => .ok { aggregate := aggregate, org_id := org }

/-- `BaseMetricsEntitySubscription.__init__`: the same `org_id` check, then
caches the resolved `session.status` tag key and the time window.  `rtk`
models the external `resolve_tag_key` collaborator. -/
def BaseMetricsEntitySubscription.create (rtk : ℤ → String → String)
    (aggregate : String) (time_window : ℤ) (extra_fields : Option ExtraFields) :
    Except SubErr MetricsSub :=
  match extraOrgId extra_fields with
  | none => .error .invalidQuerySubscription
  | some org =>
    .ok { aggregate := aggregate, time_window := time_window, org_id := org
          session_status := rtk org "session.status" }

/-- The closed union of entity-subscription variants
(`EntitySubscription = Union[...]` in the source). -/
inductive EntitySubscription where
  | events : EventsSub → EntitySubscription
  | transactions : EventsSub → EntitySubscription
  | sessions : SessionsSub → EntitySubscription
  | metricsCounters : MetricsSub → EntitySubscription
  | metricsSets : MetricsSub → EntitySubscription
deriving DecidableEq, Repr

/-- `get_entity_subscription_for_dataset`: classify via
`map_aggregate_to_entity_key`, then construct the variant, letting
construction-time failures propagate. -/
def get_entity_subscription_for_dataset (rtk : ℤ → String → String)
    (dataset : QueryDatasets) (aggregate : String) (time_window : ℤ)
    (extra_fields : Option ExtraFields) : Except SubErr EntitySubscription :=
  match map_aggregate_to_entity_key dataset aggregate with
  | .error e => .error e
  | .ok .Events =>
    .ok (.events (BaseEventsAndTransactionEntitySubscription.create aggregate time_window extra_fields))
  | .ok .Transactions =>
    .ok (.transactions (BaseEventsAndTransactionEntitySubscription.create aggregate time_window extra_fields))
  | .ok .Sessions =>
    (SessionsEntitySubscription.create aggregate time_window extra_fields).map .sessions
  | .ok .MetricsCounters =>
    (BaseMetricsEntitySubscription.create rtk aggregate time_window extra_fields).map .metricsCounters
  | .ok .MetricsSets =>
    (BaseMetricsEntitySubscription.create rtk aggregate time_window extra_fields).map .metricsSets

/-- `BaseMetricsEntitySubscription.get_granularity`: the time-window →
granularity table, with the source's redundant middle guard kept verbatim. -/
def BaseMetricsEntitySubscription.get_granularity (s : MetricsSub) : ℤ :=
  if s.time_window ≤ 3600 then 10
  else if s.time_window ≤ 4 * 3600 then 60
  else if 4 * 3600 < s.time_window ∧ s.time_window ≤ 24 * 3600 then 3600
  else 24 * 3600

/-- Telemetry counter emitted by the Sessions variant on a null aggregate. -/
def sessionsNoDataCounter : String :=
  "incidents.entity_subscription.sessions.aggregate_query_results.no_session_data"

/-- Telemetry counter emitted by the Metrics variants on zero total. -/
def metricsNoDataCounter : String :=
  "incidents.entity_subscription.metrics.aggregate_query_results.no_session_data"

/-- Telemetry counter emitted when a v1 tag index fails to reverse-resolve. -/
def metricIndexNotFoundCounter : String :=
  "incidents.entity_subscription.metric_index_not_found"

/-- The format-tagged counter emitted on every metrics aggregation call. -/
def formatCounter (v : String) : String :=
  "incidents.entity_subscription.aggregate_query_results:format=" ++ v

/-- `SessionsEntitySubscription.aggregate_query_results`: asserts a single
row, reads the canonical column (`al` or the default), rewrites it in
place to `round((1 - value) * 100, 3)` when non-null, emits the no-data
counter and leaves it untouched when null.  Returns (rows, telemetry); the
returned rows are the mutated input list. -/
def SessionsEntitySubscription.aggregate_query_results (data : List Row)
    (al : Option String) : Except SubErr (List Row × List String) :=
  match data with
  | [row] =>
    let col := al.getD CRASH_RATE_ALERT_AGGREGATE_ALIAS
    match rowGet row col with
    | none => .error .keyError
    | some .null => .ok ([row], [sessionsNoDataCounter])
    | some (.num q) => .ok ([setKey row col (.num (pyRound3 ((1 - q) * 100)))], [])
    | some (.str _) => .error .typeError
  | _ => .error .assertionError

/-- `BaseEventsAndTransactionEntitySubscription.aggregate_query_results`:
returns the input rows unchanged. -/
def BaseEventsAndTransactionEntitySubscription.aggregate_query_results
    (data : List Row) (_alias : Option String) : List Row := data

/-- `is_crash_rate_format_v2`: `bool(data) and "crashed" in data[0]`. -/
def is_crash_rate_format_v2 (data : List Row) : Bool :=
  match data with
  | [] => false
  | row :: _ => (rowGet row "crashed").isSome

/-- The dict-building loop of `translate_sessions_tag_keys_and_values`: each
row's reverse-resolved `session.status` label is assigned the row's
value-column entry, later rows overwriting earlier ones (the association list
is kept latest-binding-first, so lookup sees the last assignment).  `.ok
none` models a caught `MetricIndexNotFound`; `KeyError`s propagate. -/
def buildTranslated (rr : Val → Option String) (ssKey vcol : String) :
    List Row → Except SubErr (Option (List (String × Val)))
  | [] => .ok (some [])
  | row :: rest =>
    match rowGet row ssKey with
    | none => .error .keyError
    | some v =>
      match rr v with
      | none => .ok none
      | some s =>
        if s = "" then .ok none
        else
          match rowGet row vcol with
          | none => .error .keyError
          | some w =>
            match buildTranslated rr ssKey vcol rest with
            | .error e => .error e
            | .ok none => .ok none
            | .ok (some td) => .ok (some (td ++ [(s, w)]))

/-- Lookup in the translated dict, with the Python `.get(label, 0)` default. -/
def translatedGet (td : List (String × Val)) (label : String) : Val :=
  match td with
  | [] => .num 0
  | (k, v) :: t => if k = label then v else translatedGet t label

/-- `translate_sessions_tag_keys_and_values`: returns (total, crashed) — the
translated dict's `init` and `crashed` entries (defaulting to 0) — together
with any telemetry; a failed reverse resolution degrades the whole batch to
(0, 0) plus the index-not-found counter. -/
def translate_sessions_tag_keys_and_values (rr : Val → Option String)
    (ssKey : String) (data : List Row) (al : Option String) :
    Except SubErr ((Val × Val) × List String) :=
  let vcol := al.getD "value"
  match buildTranslated rr ssKey vcol data with
  | .error e => .error e
  | .ok none => .ok ((.num 0, .num 0), [metricIndexNotFoundCounter])
  | .ok (some td) => .ok ((translatedGet td "init", translatedGet td "crashed"), [])

/-- The shared tail of both metrics normalization paths: null plus no-data
telemetry on zero total, else the rounded crash-free percentage. -/
def crashFreeRateRow (total crashed : Val) (al : Option String) :
    Except SubErr (List Row × List String) :=
  let col := al.getD CRASH_RATE_ALERT_AGGREGATE_ALIAS
  if total = .num 0 then .ok ([[(col, .null)]], [metricsNoDataCounter])
  else
    match total, crashed with
    | .num t, .num c => .ok ([[(col, .num (pyRound3 ((1 - c / t) * 100)))]], [])
    | _, _ => .error .typeError

/-- `BaseMetricsEntitySubscription._aggregate_query_results_v1`. -/
def aggregate_query_results_v1 (rr : Val → Option String) (ssKey : String)
    (data : List Row) (al : Option String) :
    Except SubErr (List Row × List String) :=
  match translate_sessions_tag_keys_and_values rr ssKey data al with
  | .error e => .error e
  | .ok ((total, crashed), tele) =>
    match crashFreeRateRow total crashed al with
    | .error e => .error e
    | .ok (rows, tele2) => .ok (rows, tele ++ tele2)

/-- `BaseMetricsEntitySubscription._aggregate_query_results_v2`: an empty
batch counts as zero total; otherwise asserts a single row and reads its
`count` and `crashed` entries. -/
def aggregate_query_results_v2 (data : List Row) (al : Option String) :
    Except SubErr (List Row × List String) :=
  match data with
  | [] => crashFreeRateRow (.num 0) (.num 0) al
  | [row] =>
    match rowGet row "count" with
    | none => .error .keyError
    | some total =>
      match rowGet row "crashed" with
      | none => .error .keyError
      | some crashed => crashFreeRateRow total crashed al
  | _ => .error .assertionError

/-- `BaseMetricsEntitySubscription.aggregate_query_results`: dispatches on
the format predicate and appends the format-tagged telemetry counter. -/
def BaseMetricsEntitySubscription.aggregate_query_results
    (rr : Val → Option String) (ssKey : String) (data : List Row)
    (al : Option String) : Except SubErr (List Row × List String) :=
  if is_crash_rate_format_v2 data then
    match aggregate_query_results_v2 data al with
    | .error e => .error e
    | .ok (rows, tele) => .ok (rows, tele ++ [formatCounter "v2"])
  else
    match aggregate_query_results_v1 rr ssKey data al with
    | .error e => .error e
    | .ok (rows, tele) => .ok (rows, tele ++ [formatCounter "v1"])

/-- Variant dispatch of `aggregate_query_results`, with the state of the
input list after the call made explicit: the result triple is (returned
rows, input rows after the call, telemetry).  Only the Sessions variant
mutates its input (its returned list is the input list), so only there the
second component differs from the original input. -/
def EntitySubscription.aggregate_query_results (rr : Val → Option String)
    (sub : EntitySubscription) (data : List Row) (al : Option String) :
    Except SubErr (List Row × List Row × List String) :=
  match sub with
  | .events _ =>
    .ok (BaseEventsAndTransactionEntitySubscription.aggregate_query_results data al, data, [])
  | .transactions _ =>
    .ok (BaseEventsAndTransactionEntitySubscription.aggregate_query_results data al, data, [])
  | .sessions _ =>
    match SessionsEntitySubscription.aggregate_query_results data al with
    | .error e => .error e
    | .ok (rows, tele) => .ok (rows, rows, tele)
  | .metricsCounters s =>
    match BaseMetricsEntitySubscription.aggregate_query_results rr s.session_status data al with
    | .error e => .error e
    | .ok (rows, tele) => .ok (rows, data, tele)
  | .metricsSets s =>
    match BaseMetricsEntitySubscription.aggregate_query_results rr s.session_status data al with
    | .error e => .error e
    | .ok (rows, tele) => .ok (rows, data, tele)

/-- Is this variant the Sessions one (the only in-place mutator)? -/
def EntitySubscription.isSessionsVariant : EntitySubscription → Bool
  | .sessions _ => true
  | _ => false

/-- Is this variant a pass-through (Events / Transactions) one? -/
def EntitySubscription.isPassThrough : EntitySubscription → Bool
  | .events _ => true
  | .transactions _ => true
  | _ => false

/-- `re.search(r"(sessions|users)", aggregate)` from
`SessionsEntitySubscription.build_query_builder`: the leftmost occurrence of
either token (they start with distinct characters, so at most one can match
at any position). -/
def findCountCol : List Char → Option String
  | [] => none
  | c :: cs =>
    if tokLeads "sessions".data (c :: cs) then some "sessions"
    else if tokLeads "users".data (c :: cs) then some "users"
    else findCountCol cs

/-- The aggregation column list built by
`SessionsEntitySubscription.build_query_builder`: the raw aggregate plus the
derived `identity(<token>) AS <session_count_alias>` total-count column;
raises `UnsupportedQuerySubscription` when neither token occurs. -/
def sessionsBuildQueryAggregations (aggregate : String) : Except SubErr (List String) :=
  match findCountCol aggregate.data with
  | none => .error .unsupportedQuerySubscription
  | some tok =>
    .ok [aggregate, "identity(" ++ tok ++ ") AS " ++ CRASH_RATE_ALERT_SESSION_COUNT_ALIAS]

/-- The event-type clause of the Dataset Condition Policy, as the spec words
it: the OR of `event.type:<lowercased name>` over the event types. -/
def eventTypeClause (l : List String) : String :=
  String.intercalate " OR " (l.map (fun n => "event.type:" ++ n.toLower))

/-- The semantic label of a v1 row: its `session.status` tag value passed
through the reverse resolver. -/
def rowLabel (rr : Val → Option String) (ssKey : String) (row : Row) : Option String :=
  (rowGet row ssKey).bind rr

/-- The value-column entry of the last row of the batch whose tag value
reverse-resolves to the given label (`none` when no row does) — the
dict-overwrite semantics the v1 translation actually implements. -/
def lastLabelValue (rr : Val → Option String) (ssKey vcol label : String) :
    List Row → Option Val
  | [] => none
  | row :: rest =>
    match lastLabelValue rr ssKey vcol label rest with
    | some v => some v
    | none => if rowLabel rr ssKey row = some label then rowGet row vcol else none

/-- The token occurs at position `i` of the character list. -/
def hasTokAt (tok l : List Char) (i : ℕ) : Prop := tokLeads tok (l.drop i) = true

/-- C6: the Metrics variants' granularity table: 10s up to one hour, 60s up
to four hours, one hour up to a day, one day beyond. -/
theorem claim_c6_metrics_granularity (s : MetricsSub) (h : 0 < s.time_window) :
    (s.time_window ≤ 3600 → BaseMetricsEntitySubscription.get_granularity s = 10) ∧
    (3600 < s.time_window → s.time_window ≤ 14400 →
      BaseMetricsEntitySubscription.get_granularity s = 60) ∧
    (14400 < s.time_window → s.time_window ≤ 86400 →
      BaseMetricsEntitySubscription.get_granularity s = 3600) ∧
    (86400 < s.time_window → BaseMetricsEntitySubscription.get_granularity s = 86400) := by
  unfold BaseMetricsEntitySubscription.get_granularity
  refine ⟨fun h1 => ?_, fun h1 h2 => ?_, fun h1 h2 => ?_, fun h1 => ?_⟩ <;>
    split_ifs <;> omega

/-- C6 witness: the six sample points of the granularity table. -/
theorem claim_c6_metrics_granularity_witness :
    BaseMetricsEntitySubscription.get_granularity ⟨"a", 3600, 1, "s"⟩ = 10 ∧
    BaseMetricsEntitySubscription.get_granularity ⟨"a", 3601, 1, "s"⟩ = 60 ∧
    BaseMetricsEntitySubscription.get_granularity ⟨"a", 14400, 1, "s"⟩ = 60 ∧
    BaseMetricsEntitySubscription.get_granularity ⟨"a", 14401, 1, "s"⟩ = 3600 ∧
    BaseMetricsEntitySubscription.get_granularity ⟨"a", 86400, 1, "s"⟩ = 3600 ∧
    BaseMetricsEntitySubscription.get_granularity ⟨"a", 86401, 1, "s"⟩ = 86400 :=
  ⟨(claim_c6_metrics_granularity ⟨"a", 3600, 1, "s"⟩ (by norm_num)).1 (by norm_num),
   (claim_c6_metrics_granularity ⟨"a", 3601, 1, "s"⟩ (by norm_num)).2.1 (by norm_num) (by norm_num),
   (claim_c6_metrics_granularity ⟨"a", 14400, 1, "s"⟩ (by norm_num)).2.1 (by norm_num) (by norm_num),
   (claim_c6_metrics_granularity ⟨"a", 14401, 1, "s"⟩ (by norm_num)).2.2.1 (by norm_num) (by norm_num),
   (claim_c6_metrics_granularity ⟨"a", 86400, 1, "s"⟩ (by norm_num)).2.2.1 (by norm_num) (by norm_num),
   (claim_c6_metrics_granularity ⟨"a", 86401, 1, "s"⟩ (by norm_num)).2.2.2 (by norm_num)⟩

/-- C5: Sessions and Metrics variants fail construction with
`InvalidQuerySubscription` when `extra_fields` is absent or lacks the
organization id, for any aggregate and time window; in particular the factory
call `create(Sessions, "percentage(sessions_crashed, sessions)", 3600, {})`
fails that way, producing no subscription object. -/
theorem claim_c5_org_id_required (rtk : ℤ → String → String) (aggregate : String)
    (time_window : ℤ) (extra_fields : Option ExtraFields)
    (h : extraOrgId extra_fields = none) :
    SessionsEntitySubscription.create aggregate time_window extra_fields =
      .error .invalidQuerySubscription ∧
    BaseMetricsEntitySubscription.create rtk aggregate time_window extra_fields =
      .error .invalidQuerySubscription ∧
    get_entity_subscription_for_dataset rtk .sessions
      "percentage(sessions_crashed, sessions)" 3600 (some ⟨none, none⟩) =
      .error .invalidQuerySubscription := by
  refine ⟨?_, ?_, rfl⟩
  · unfold SessionsEntitySubscription.create
    rw [h]
  · unfold BaseMetricsEntitySubscription.create
    rw [h]

/-- C5 witness: instantiated at `extra_fields = None` and at the empty dict. -/
theorem claim_c5_org_id_required_witness :
    SessionsEntitySubscription.create "count()" 60 none =
      .error .invalidQuerySubscription ∧
    BaseMetricsEntitySubscription.create (fun _ _ => "t") "count()" 60 none =
      .error .invalidQuerySubscription ∧
    get_entity_subscription_for_dataset (fun _ _ => "t") .sessions
      "percentage(sessions_crashed, sessions)" 3600 (some ⟨none, none⟩) =
      .error .invalidQuerySubscription :=
  claim_c5_org_id_required (fun _ _ => "t") "count()" 60 none rfl

/-- Rounding an exact integer is the identity. -/
theorem roundHalfEven_intCast (n : ℤ) : roundHalfEven (n : ℚ) = n := by
  simp only [roundHalfEven, Int.floor_intCast, sub_self]
  norm_num

/-- Evaluation helper: when `q * 1000` is an exact integer, `round(q, 3)`
returns it scaled back down. -/
theorem pyRound3_eq_of_mul_1000 (q : ℚ) (n : ℤ) (h : q * 1000 = (n : ℚ)) :
    pyRound3 q = (n : ℚ) / 1000 := by
  unfold pyRound3
  rw [h, roundHalfEven_intCast]

/-- C1: the entity classifier realises exactly the claimed mapping: Events and
Transactions map directly for every aggregate; Sessions and Metrics require
the crash-free percentage pattern (the source's anchored regex with optional
space padding), Sessions mapping to the Sessions kind and Metrics routing on
capture group 2 (`"sessions"` → MetricsCounters, otherwise MetricsSets, so
`percentage(sessions_crashed, users)` routes to MetricsSets); non-matching
aggregates fail with `UnsupportedQuerySubscription`. -/
theorem claim_c1_entity_classifier (aggregate : String) :
    map_aggregate_to_entity_key .events aggregate = .ok .Events ∧
    map_aggregate_to_entity_key .transactions aggregate = .ok .Transactions ∧
    (∀ g1 g2, parseCrashRateAggregate aggregate = some (g1, g2) →
      map_aggregate_to_entity_key .sessions aggregate = .ok .Sessions ∧
      map_aggregate_to_entity_key .metrics aggregate =
        .ok (if g2 = "sessions" then .MetricsCounters else .MetricsSets)) ∧
    (parseCrashRateAggregate aggregate = none →
      map_aggregate_to_entity_key .sessions aggregate =
        .error .unsupportedQuerySubscription ∧
      map_aggregate_to_entity_key .metrics aggregate =
        .error .unsupportedQuerySubscription) ∧
    map_aggregate_to_entity_key .metrics "percentage(sessions_crashed, users)" =
      .ok .MetricsSets := by
  refine ⟨rfl, rfl, ?_, ?_, rfl⟩
  · intro g1 g2 hp
    constructor
    · simp only [map_aggregate_to_entity_key, hp]
    · simp only [map_aggregate_to_entity_key, hp]
      by_cases hg : g2 = "sessions" <;> simp [hg]
  · intro hp
    constructor <;> simp only [map_aggregate_to_entity_key, hp]

/-- C1 witness: the classifier evaluated on matching and non-matching
aggregates for each dataset. -/
theorem claim_c1_entity_classifier_witness :
    map_aggregate_to_entity_key .events "count()" = .ok .Events ∧
    map_aggregate_to_entity_key .transactions "p95()" = .ok .Transactions ∧
    map_aggregate_to_entity_key .sessions "percentage(sessions_crashed, users)" =
      .ok .Sessions ∧
    map_aggregate_to_entity_key .metrics "percentage(sessions_crashed, users)" =
      .ok (if ("users" : String) = "sessions" then .MetricsCounters else .MetricsSets) ∧
    map_aggregate_to_entity_key .sessions "count()" =
      .error .unsupportedQuerySubscription ∧
    map_aggregate_to_entity_key .metrics "count()" =
      .error .unsupportedQuerySubscription :=
  ⟨(claim_c1_entity_classifier "count()").1,
   (claim_c1_entity_classifier "p95()").2.1,
   ((claim_c1_entity_classifier "percentage(sessions_crashed, users)").2.2.1
      "sessions_crashed" "users" (by decide)).1,
   ((claim_c1_entity_classifier "percentage(sessions_crashed, users)").2.2.1
      "sessions_crashed" "users" (by decide)).2,
   ((claim_c1_entity_classifier "count()").2.2.2.1 (by decide)).1,
   ((claim_c1_entity_classifier "count()").2.2.2.1 (by decide)).2⟩

/-- C4: the Sessions variant's normalization on a one-row input reads the
canonical column (alias when given, else the default): a numeric value `v` is
replaced in place by `round((1 - v) * 100, 3)`, a null value stays null while
the no-data counter fires, and any input that is not exactly one row fails
the contract assertion. -/
theorem claim_c4_sessions_normalization (data : List Row) (al : Option String) :
    (∀ row q, data = [row] →
      rowGet row (al.getD CRASH_RATE_ALERT_AGGREGATE_ALIAS) = some (.num q) →
      SessionsEntitySubscription.aggregate_query_results data al =
        .ok ([setKey row (al.getD CRASH_RATE_ALERT_AGGREGATE_ALIAS)
                (.num (pyRound3 ((1 - q) * 100)))], [])) ∧
    (∀ row, data = [row] →
      rowGet row (al.getD CRASH_RATE_ALERT_AGGREGATE_ALIAS) = some .null →
      SessionsEntitySubscription.aggregate_query_results data al =
        .ok ([row], [sessionsNoDataCounter])) ∧
    (data.length ≠ 1 →
      SessionsEntitySubscription.aggregate_query_results data al =
        .error .assertionError) := by
  refine ⟨?_, ?_, ?_⟩
  · intro row q hd hget
    subst hd
    simp only [SessionsEntitySubscription.aggregate_query_results, hget]
  · intro row hd hget
    subst hd
    simp only [SessionsEntitySubscription.aggregate_query_results, hget]
  · intro hlen
    match data with
    | [] => rfl
    | [row] => exact absurd rfl hlen
    | a :: b :: t => rfl

/-- C4 witness: value 0.1 becomes 90.0, null stays null with the no-data
signal, and a zero-row input hits the assertion. -/
theorem claim_c4_sessions_normalization_witness :
    SessionsEntitySubscription.aggregate_query_results
      [[(CRASH_RATE_ALERT_AGGREGATE_ALIAS, Val.num (1 / 10))]] none =
      .ok ([[(CRASH_RATE_ALERT_AGGREGATE_ALIAS, Val.num 90)]], []) ∧
    SessionsEntitySubscription.aggregate_query_results
      [[(CRASH_RATE_ALERT_AGGREGATE_ALIAS, Val.null)]] none =
      .ok ([[(CRASH_RATE_ALERT_AGGREGATE_ALIAS, Val.null)]], [sessionsNoDataCounter]) ∧
    SessionsEntitySubscription.aggregate_query_results [] none =
      .error .assertionError := by
  refine ⟨?_, ?_, ?_⟩
  · have h := (claim_c4_sessions_normalization
      [[(CRASH_RATE_ALERT_AGGREGATE_ALIAS, Val.num (1 / 10))]] none).1
      [(CRASH_RATE_ALERT_AGGREGATE_ALIAS, Val.num (1 / 10))] (1 / 10) rfl
      (by simp [rowGet])
    rw [h]
    rw [pyRound3_eq_of_mul_1000 ((1 - 1 / 10) * 100) 90000 (by norm_num)]
    norm_num [setKey]
  · exact (claim_c4_sessions_normalization
      [[(CRASH_RATE_ALERT_AGGREGATE_ALIAS, Val.null)]] none).2.1
      [(CRASH_RATE_ALERT_AGGREGATE_ALIAS, Val.null)] rfl (by simp [rowGet])
  · exact (claim_c4_sessions_normalization [] none).2.2 (by simp)

/-- C7: the Dataset Condition Policy is the claimed pure mapping: the query is
unchanged for Transactions outside discover mode and for datasets with
neither a non-empty event-type list nor a default clause; otherwise the
event-type clause (the OR of `event.type:<lowercased name>` over a non-empty
list, else the dataset default) is prepended as
`(<clause>) AND (<query>)` on a non-empty query and returned alone on an
empty one.  Purity/side-effect-freedom is inherent: the model is a total Lean
function of its arguments. -/
theorem claim_c7_apply_dataset_query_conditions (dataset : QueryDatasets)
    (query : String) (event_types : Option (List String)) (discover : Bool) :
    (dataset = .transactions → discover = false →
      apply_dataset_query_conditions dataset query event_types discover = query) ∧
    ((event_types = none ∨ event_types = some []) →
      (dataset = .sessions ∨ dataset = .metrics) →
      apply_dataset_query_conditions dataset query event_types discover = query) ∧
    (¬(discover = false ∧ dataset = .transactions) → ∀ h t, event_types = some (h :: t) →
      apply_dataset_query_conditions dataset query event_types discover =
        (if query = "" then eventTypeClause (h :: t)
         else "(" ++ eventTypeClause (h :: t) ++ ") AND (" ++ query ++ ")")) ∧
    ((event_types = none ∨ event_types = some []) → dataset = .events →
      apply_dataset_query_conditions dataset query event_types discover =
        (if query = "" then "event.type:error"
         else "(event.type:error) AND (" ++ query ++ ")")) ∧
    ((event_types = none ∨ event_types = some []) → dataset = .transactions →
      discover = true →
      apply_dataset_query_conditions dataset query event_types discover =
        (if query = "" then "event.type:transaction"
         else "(event.type:transaction) AND (" ++ query ++ ")")) := by
  refine ⟨?_, ?_, ?_, ?_, ?_⟩
  · intro hds hdisc
    subst hds; subst hdisc
    simp [apply_dataset_query_conditions]
  · intro het hds
    rcases het with h | h <;> subst h <;>
      rcases hds with h | h <;> subst h <;>
      cases discover <;> simp [apply_dataset_query_conditions]
  · intro hnot h t het
    subst het
    rw [apply_dataset_query_conditions, if_neg hnot]
    simp [eventTypeClause]
  · intro het hds
    subst hds
    rcases het with h | h <;> subst h <;>
      cases discover <;> simp [apply_dataset_query_conditions]
  · intro het hds hdisc
    subst hds; subst hdisc
    rcases het with h | h <;> subst h <;> simp [apply_dataset_query_conditions]

/-- C7 witness: the spec's three sample evaluations plus a non-empty
event-type list in discover mode. -/
theorem claim_c7_apply_dataset_query_conditions_witness :
    apply_dataset_query_conditions .transactions "release:1.0" none false = "release:1.0" ∧
    apply_dataset_query_conditions .events "" none false = "event.type:error" ∧
    apply_dataset_query_conditions .events "release:1.0" none false =
      "(event.type:error) AND (release:1.0)" ∧
    apply_dataset_query_conditions .sessions "release:1.0" none false = "release:1.0" ∧
    apply_dataset_query_conditions .transactions "x" (some ["ERROR", "DEFAULT"]) true =
      (if ("x" : String) = "" then eventTypeClause ["ERROR", "DEFAULT"]
       else "(" ++ eventTypeClause ["ERROR", "DEFAULT"] ++ ") AND (" ++ "x" ++ ")") := by
  refine ⟨?_, ?_, ?_, ?_, ?_⟩
  · exact (claim_c7_apply_dataset_query_conditions .transactions "release:1.0" none false).1
      rfl rfl
  · exact ((claim_c7_apply_dataset_query_conditions .events "" none false).2.2.2.1
      (Or.inl rfl) rfl).trans (by simp)
  · exact ((claim_c7_apply_dataset_query_conditions .events "release:1.0" none
      false).2.2.2.1 (Or.inl rfl) rfl).trans (by simp)
  · exact (claim_c7_apply_dataset_query_conditions .sessions "release:1.0" none false).2.1
      (Or.inl rfl) (Or.inl rfl)
  · exact (claim_c7_apply_dataset_query_conditions .transactions "x"
      (some ["ERROR", "DEFAULT"]) true).2.2.1 (by simp) "ERROR" ["DEFAULT"] rfl

/-- C2 counterexample: the claim's detection rule ("format v2 exactly when a
row contains a `crashed` field") is false on the code: with a resolvable
first row and a `crashed` field only in the second row, the batch contains a
row with `crashed` yet is normalized by the v1 path (the v1 format counter is
emitted and the v1 dict-translation result is returned). -/
theorem claim_c2_counterexample :
    is_crash_rate_format_v2
      [[("ss", Val.num 1), ("value", Val.num 10)],
       [("crashed", Val.num 5), ("ss", Val.num 1), ("value", Val.num 3)]] = false ∧
    (([[("ss", Val.num 1), ("value", Val.num 10)],
       [("crashed", Val.num 5), ("ss", Val.num 1), ("value", Val.num 3)]] : List Row).any
      (fun r => (rowGet r "crashed").isSome)) = true ∧
    BaseMetricsEntitySubscription.aggregate_query_results
      (fun v => if v = .num 1 then some "init" else none) "ss"
      [[("ss", Val.num 1), ("value", Val.num 10)],
       [("crashed", Val.num 5), ("ss", Val.num 1), ("value", Val.num 3)]] none =
      .ok ([[(CRASH_RATE_ALERT_AGGREGATE_ALIAS, Val.num 100)]], [formatCounter "v1"]) := by
  have h100 : pyRound3 (100 : ℚ) = 100 := by
    rw [pyRound3_eq_of_mul_1000 _ 100000 (by norm_num)]
    norm_num
  refine ⟨by simp [is_crash_rate_format_v2, rowGet], by simp [rowGet], ?_⟩
  simp [BaseMetricsEntitySubscription.aggregate_query_results, is_crash_rate_format_v2,
    aggregate_query_results_v1, translate_sessions_tag_keys_and_values, buildTranslated,
    translatedGet, crashFreeRateRow, rowGet, h100]

/-- C2 (amended): format v2 is detected exactly when the batch is non-empty
and its FIRST row contains a `crashed` field; a v2 batch must hold a single
row (two or more rows fail the contract assertion), with `total` the row's
`count` and `crashed` the row's `crashed`, and the returned single row's
canonical column equals `round((1 - crashed/total) * 100, 3)` when total is
non-zero and null when total is zero; an empty batch also yields null (the v2
helper's empty case, and the v1 path at dispatch level since an empty batch
is not detected as v2). -/
theorem claim_c2_metrics_v2_normalization (rr : Val → Option String)
    (ssKey : String) (data : List Row) (al : Option String) :
    (is_crash_rate_format_v2 data = true ↔
      ∃ row rest, data = row :: rest ∧ (rowGet row "crashed").isSome) ∧
    (∀ row tq cq, data = [row] →
      rowGet row "count" = some (.num tq) →
      rowGet row "crashed" = some (.num cq) →
      BaseMetricsEntitySubscription.aggregate_query_results rr ssKey data al =
        .ok ([[(al.getD CRASH_RATE_ALERT_AGGREGATE_ALIAS,
                if tq = 0 then .null else .num (pyRound3 ((1 - cq / tq) * 100)))]],
             (if tq = 0 then [metricsNoDataCounter] else []) ++ [formatCounter "v2"])) ∧
    aggregate_query_results_v2 [] al =
      .ok ([[(al.getD CRASH_RATE_ALERT_AGGREGATE_ALIAS, .null)]], [metricsNoDataCounter]) ∧
    BaseMetricsEntitySubscription.aggregate_query_results rr ssKey [] al =
      .ok ([[(al.getD CRASH_RATE_ALERT_AGGREGATE_ALIAS, .null)]],
           [metricsNoDataCounter, formatCounter "v1"]) ∧
    (∀ r1 r2 rest, data = r1 :: r2 :: rest → (rowGet r1 "crashed").isSome →
      BaseMetricsEntitySubscription.aggregate_query_results rr ssKey data al =
        .error .assertionError) := by
  refine ⟨?_, ?_, ?_, ?_, ?_⟩
  · cases data with
    | nil => simp [is_crash_rate_format_v2]
    | cons r t => simp [is_crash_rate_format_v2]
  · intro row tq cq hd hcount hcrashed
    subst hd
    have hv2 : is_crash_rate_format_v2 [row] = true := by
      simp [is_crash_rate_format_v2, hcrashed]
    by_cases ht : tq = 0 <;>
      simp [BaseMetricsEntitySubscription.aggregate_query_results, hv2,
        aggregate_query_results_v2, hcount, hcrashed, crashFreeRateRow, ht]
  · simp [aggregate_query_results_v2, crashFreeRateRow]
  · simp [BaseMetricsEntitySubscription.aggregate_query_results, is_crash_rate_format_v2,
      aggregate_query_results_v1, translate_sessions_tag_keys_and_values, buildTranslated,
      translatedGet, crashFreeRateRow]
  · intro r1 r2 rest hd hc
    subst hd
    have hv2 : is_crash_rate_format_v2 (r1 :: r2 :: rest) = true := by
      simp [is_crash_rate_format_v2, hc]
    simp [BaseMetricsEntitySubscription.aggregate_query_results, hv2,
      aggregate_query_results_v2]

/-- C2 witness: `[{count: 100, crashed: 5}]` gives 95.0 via the v2 path, and
the empty batch gives null. -/
theorem claim_c2_metrics_v2_normalization_witness :
    BaseMetricsEntitySubscription.aggregate_query_results (fun _ => none) "ss"
      [[("count", Val.num 100), ("crashed", Val.num 5)]] none =
      .ok ([[(CRASH_RATE_ALERT_AGGREGATE_ALIAS, Val.num 95)]], [formatCounter "v2"]) ∧
    aggregate_query_results_v2 [] none =
      .ok ([[(CRASH_RATE_ALERT_AGGREGATE_ALIAS, Val.null)]], [metricsNoDataCounter]) := by
  constructor
  · have h := (claim_c2_metrics_v2_normalization (fun _ => none) "ss"
      [[("count", Val.num 100), ("crashed", Val.num 5)]] none).2.1
      [("count", Val.num 100), ("crashed", Val.num 5)] 100 5 rfl
      (by simp [rowGet]) (by simp [rowGet])
    rw [h]
    have h95 : pyRound3 (95 : ℚ) = 95 := by
      rw [pyRound3_eq_of_mul_1000 _ 95000 (by norm_num)]
      norm_num
    norm_num [h95]
  · exact (claim_c2_metrics_v2_normalization (fun _ => none) "ss" [] none).2.2.1

/-- The dict `.get(label, 0)` is the optional lookup with default 0. -/
theorem translatedGet_eq_rowGet (td : List (String × Val)) (label : String) :
    translatedGet td label = (rowGet td label).getD (.num 0) := by
  induction td with
  | nil => rfl
  | cons p t ih =>
    obtain ⟨k, v⟩ := p
    by_cases hk : k = label <;> simp [translatedGet, rowGet, hk, ih]

/-- Association lookup distributes over append, preferring the left part. -/
theorem rowGet_append (l1 l2 : Row) (k : String) :
    rowGet (l1 ++ l2) k =
      (match rowGet l1 k with
       | some v => some v
       | none => rowGet l2 k) := by
  induction l1 with
  | nil => simp [rowGet]
  | cons p t ih =>
    obtain ⟨k', v'⟩ := p
    by_cases hk : k' = k <;> simp [rowGet, hk, ih]

/-- When every row of the batch resolves to a non-empty label and carries the
value column, the v1 dict translation succeeds and its lookup at any
non-empty label is the value of the LAST row resolving to that label —
dict-overwrite (not summing) semantics. -/
theorem buildTranslated_resolves (rr : Val → Option String) (ssKey vcol : String)
    (data : List Row)
    (h : ∀ row ∈ data, ∃ v s w, rowGet row ssKey = some v ∧ rr v = some s ∧
         s ≠ "" ∧ rowGet row vcol = some w) :
    ∃ td, buildTranslated rr ssKey vcol data = .ok (some td) ∧
      ∀ label, label ≠ "" →
        rowGet td label = lastLabelValue rr ssKey vcol label data := by
  induction data with
  | nil => exact ⟨[], rfl, fun label _ => rfl⟩
  | cons row rest ih =>
    obtain ⟨v, s, w, hv, hs, hsne, hw⟩ := h row (List.mem_cons_self row rest)
    obtain ⟨td, htd, hlook⟩ := ih (fun r hr => h r (List.mem_cons_of_mem row hr))
    refine ⟨td ++ [(s, w)], ?_, ?_⟩
    · simp [buildTranslated, hv, hs, hsne, hw, htd]
    · intro label hlabel
      rw [rowGet_append, hlook label hlabel]
      cases hlast : lastLabelValue rr ssKey vcol label rest with
      | some u => simp [lastLabelValue, hlast]
      | none =>
        simp only [lastLabelValue, hlast]
        have hrl : rowLabel rr ssKey row = some s := by
          simp [rowLabel, hv, hs]
        by_cases hsl : s = label
        · subst hsl
          simp [rowGet, hrl, hw]
        · have : ¬rowLabel rr ssKey row = some label := by
            rw [hrl]
            simp [hsl]
          simp [rowGet, hsl, this]

/-- C3 counterexample: values of rows resolving to the same label are NOT
summed — the dict translation overwrites, keeping only the last row's value.
With crashed-rows worth 5 and 7 and an init-row worth 100, the code returns
round((1 - 7/100) * 100, 3) = 93.0, while the claim's summed prediction is
round((1 - 12/100) * 100, 3) = 88.0. -/
theorem claim_c3_counterexample :
    BaseMetricsEntitySubscription.aggregate_query_results
      (fun v => if v = .num 1 then some "init"
                else if v = .num 2 then some "crashed" else none) "ss"
      [[("ss", Val.num 1), ("value", Val.num 100)],
       [("ss", Val.num 2), ("value", Val.num 5)],
       [("ss", Val.num 2), ("value", Val.num 7)]] none =
      .ok ([[(CRASH_RATE_ALERT_AGGREGATE_ALIAS, Val.num 93)]], [formatCounter "v1"]) ∧
    Val.num (pyRound3 ((1 - (5 + 7) / 100) * 100)) = Val.num 88 ∧
    Val.num (93 : ℚ) ≠ Val.num 88 := by
  have h93 : pyRound3 ((1 - (7 : ℚ) / 100) * 100) = 93 := by
    rw [pyRound3_eq_of_mul_1000 _ 93000 (by norm_num)]
    norm_num
  have h88 : pyRound3 ((1 - ((5 : ℚ) + 7) / 100) * 100) = 88 := by
    rw [pyRound3_eq_of_mul_1000 _ 88000 (by norm_num)]
    norm_num
  refine ⟨?_, by rw [h88], by norm_num⟩
  simp [BaseMetricsEntitySubscription.aggregate_query_results, is_crash_rate_format_v2,
    aggregate_query_results_v1, translate_sessions_tag_keys_and_values, buildTranslated,
    translatedGet, crashFreeRateRow, rowGet, h93]

/-- C3 (amended): for a format-v1 batch in which every row's `session.status`
tag value reverse-resolves to a non-empty label and carries the value column
(default name `"value"`, or the alias), `total` is the value-column entry of
the LAST row whose label is `init` and `crashed` the entry of the LAST row
whose label is `crashed`; a label absent from the batch contributes 0.  When
several rows resolve to the same label, the later row overwrites the earlier
ones (values are not summed). -/
theorem claim_c3_metrics_v1_translation (rr : Val → Option String)
    (ssKey : String) (data : List Row) (al : Option String)
    (h : ∀ row ∈ data, ∃ v s w, rowGet row ssKey = some v ∧ rr v = some s ∧
         s ≠ "" ∧ rowGet row (al.getD "value") = some w) :
    translate_sessions_tag_keys_and_values rr ssKey data al =
      .ok (((lastLabelValue rr ssKey (al.getD "value") "init" data).getD (.num 0),
            (lastLabelValue rr ssKey (al.getD "value") "crashed" data).getD (.num 0)),
           []) := by
  obtain ⟨td, htd, hlook⟩ :=
    buildTranslated_resolves rr ssKey (al.getD "value") data h
  simp only [translate_sessions_tag_keys_and_values, htd]
  rw [translatedGet_eq_rowGet, translatedGet_eq_rowGet,
      hlook "init" (by simp), hlook "crashed" (by simp)]

/-- C3 witness: a batch with one `init` row worth 4 and no `crashed` row
translates to total 4, crashed 0. -/
theorem claim_c3_metrics_v1_translation_witness :
    translate_sessions_tag_keys_and_values
      (fun v => if v = .num 1 then some "init" else none) "ss"
      [[("ss", Val.num 1), ("value", Val.num 4)]] none =
      .ok ((Val.num 4, Val.num 0), []) := by
  have h := claim_c3_metrics_v1_translation
    (fun v => if v = .num 1 then some "init" else none) "ss"
    [[("ss", Val.num 1), ("value", Val.num 4)]] none
    (by
      intro row hrow
      simp only [List.mem_singleton] at hrow
      subst hrow
      exact ⟨.num 1, "init", .num 4, by simp [rowGet], by simp, by simp, by simp [rowGet]⟩)
  rw [h]
  simp [lastLabelValue, rowLabel, rowGet]

/-- C8 counterexample: the Sessions variant mutates its input rows in place
(the returned list is the input list), so calling `aggregate_query_results`
twice on the same input yields different outputs: 0.1 becomes 90.0 on the
first call and the mutated 90.0 becomes -8900.0 on the second. -/
theorem claim_c8_counterexample :
    EntitySubscription.aggregate_query_results (fun _ => none)
      (.sessions ⟨"percentage(sessions_crashed, sessions)", 1⟩)
      [[(CRASH_RATE_ALERT_AGGREGATE_ALIAS, Val.num (1 / 10))]] none =
      .ok ([[(CRASH_RATE_ALERT_AGGREGATE_ALIAS, Val.num 90)]],
           [[(CRASH_RATE_ALERT_AGGREGATE_ALIAS, Val.num 90)]], []) ∧
    EntitySubscription.aggregate_query_results (fun _ => none)
      (.sessions ⟨"percentage(sessions_crashed, sessions)", 1⟩)
      [[(CRASH_RATE_ALERT_AGGREGATE_ALIAS, Val.num 90)]] none =
      .ok ([[(CRASH_RATE_ALERT_AGGREGATE_ALIAS, Val.num (-8900))]],
           [[(CRASH_RATE_ALERT_AGGREGATE_ALIAS, Val.num (-8900))]], []) ∧
    ([[(CRASH_RATE_ALERT_AGGREGATE_ALIAS, Val.num 90)]] : List Row) ≠
      [[(CRASH_RATE_ALERT_AGGREGATE_ALIAS, Val.num (-8900))]] := by
  have h90 : pyRound3 ((1 - (10 : ℚ)⁻¹) * 100) = 90 := by
    rw [pyRound3_eq_of_mul_1000 _ 90000 (by norm_num)]
    norm_num
  have hneg : pyRound3 ((1 - (90 : ℚ)) * 100) = -8900 := by
    rw [pyRound3_eq_of_mul_1000 _ (-8900000) (by norm_num)]
    norm_num
  refine ⟨?_, ?_, by simp; norm_num⟩
  · simp [EntitySubscription.aggregate_query_results,
      SessionsEntitySubscription.aggregate_query_results, rowGet, setKey, h90]
  · simp [EntitySubscription.aggregate_query_results,
      SessionsEntitySubscription.aggregate_query_results, rowGet, setKey, hneg]

/-- C8 (amended): every variant's `aggregate_query_results` is a
deterministic function of the input row values, and every variant except
Sessions leaves its input unmodified, so for those variants a second call on
the same (unchanged) input returns the first call's output; the Sessions
variant rewrites the canonical column of its input in place, so a second call
on the same rows yields a different output. -/
theorem claim_c8_idempotence (rr : Val → Option String) (sub : EntitySubscription)
    (data out st : List Row) (tele : List String) (al : Option String)
    (hns : sub.isSessionsVariant = false)
    (hok : EntitySubscription.aggregate_query_results rr sub data al =
      .ok (out, st, tele)) :
    st = data ∧
    ∀ out2 st2 tele2,
      EntitySubscription.aggregate_query_results rr sub st al =
        .ok (out2, st2, tele2) → out2 = out := by
  cases sub with
  | events e =>
    simp only [EntitySubscription.aggregate_query_results,
      BaseEventsAndTransactionEntitySubscription.aggregate_query_results,
      Except.ok.injEq, Prod.mk.injEq] at hok
    obtain ⟨ho, hs, ht⟩ := hok
    subst ho
    subst hs
    refine ⟨rfl, ?_⟩
    intro out2 st2 tele2 h2
    simp only [EntitySubscription.aggregate_query_results,
      BaseEventsAndTransactionEntitySubscription.aggregate_query_results,
      Except.ok.injEq, Prod.mk.injEq] at h2
    exact h2.1.symm
  | transactions e =>
    simp only [EntitySubscription.aggregate_query_results,
      BaseEventsAndTransactionEntitySubscription.aggregate_query_results,
      Except.ok.injEq, Prod.mk.injEq] at hok
    obtain ⟨ho, hs, ht⟩ := hok
    subst ho
    subst hs
    refine ⟨rfl, ?_⟩
    intro out2 st2 tele2 h2
    simp only [EntitySubscription.aggregate_query_results,
      BaseEventsAndTransactionEntitySubscription.aggregate_query_results,
      Except.ok.injEq, Prod.mk.injEq] at h2
    exact h2.1.symm
  | sessions s => simp [EntitySubscription.isSessionsVariant] at hns
  | metricsCounters s =>
    cases hmatch : BaseMetricsEntitySubscription.aggregate_query_results rr
        s.session_status data al with
    | error e =>
      simp only [EntitySubscription.aggregate_query_results, hmatch] at hok
      exact Except.noConfusion hok
    | ok p =>
      obtain ⟨rows, t⟩ := p
      simp only [EntitySubscription.aggregate_query_results, hmatch,
        Except.ok.injEq, Prod.mk.injEq] at hok
      obtain ⟨ho, hs, ht⟩ := hok
      subst ho
      subst hs
      refine ⟨rfl, ?_⟩
      intro out2 st2 tele2 h2
      simp only [EntitySubscription.aggregate_query_results, hmatch,
        Except.ok.injEq, Prod.mk.injEq] at h2
      exact h2.1.symm
  | metricsSets s =>
    cases hmatch : BaseMetricsEntitySubscription.aggregate_query_results rr
        s.session_status data al with
    | error e =>
      simp only [EntitySubscription.aggregate_query_results, hmatch] at hok
      exact Except.noConfusion hok
    | ok p =>
      obtain ⟨rows, t⟩ := p
      simp only [EntitySubscription.aggregate_query_results, hmatch,
        Except.ok.injEq, Prod.mk.injEq] at hok
      obtain ⟨ho, hs, ht⟩ := hok
      subst ho
      subst hs
      refine ⟨rfl, ?_⟩
      intro out2 st2 tele2 h2
      simp only [EntitySubscription.aggregate_query_results, hmatch,
        Except.ok.injEq, Prod.mk.injEq] at h2
      exact h2.1.symm

/-- C8 witness: the Events variant on a concrete batch leaves the input
unchanged and a repeated call returns the same output. -/
theorem claim_c8_idempotence_witness :
    ([[("x", Val.num 1)]] : List Row) = [[("x", Val.num 1)]] ∧
    ∀ out2 st2 tele2,
      EntitySubscription.aggregate_query_results (fun _ => none)
        (.events ⟨"count()", none⟩) [[("x", Val.num 1)]] none =
        .ok (out2, st2, tele2) → out2 = [[("x", Val.num 1)]] :=
  claim_c8_idempotence (fun _ => none) (.events ⟨"count()", none⟩)
    [[("x", Val.num 1)]] [[("x", Val.num 1)]] [[("x", Val.num 1)]] [] none rfl rfl

/-- Updating a key makes it present with the new value. -/
theorem rowGet_setKey (row : Row) (k : String) (v : Val) :
    rowGet (setKey row k v) k = some v := by
  induction row with
  | nil => simp [setKey, rowGet]
  | cons p t ih =>
    obtain ⟨k', v'⟩ := p
    by_cases hk : k' = k <;> simp [setKey, rowGet, hk, ih]

/-- Every successful result of the shared metrics tail is a single row whose
canonical column holds null or a number. -/
theorem crashFreeRateRow_shape (total crashed : Val) (al : Option String)
    (rows : List Row) (t : List String)
    (h : crashFreeRateRow total crashed al = .ok (rows, t)) :
    ∃ v, rows = [[(al.getD CRASH_RATE_ALERT_AGGREGATE_ALIAS, v)]] ∧
      (v = .null ∨ ∃ q, v = .num q) := by
  unfold crashFreeRateRow at h
  by_cases h0 : total = .num 0
  · rw [if_pos h0] at h
    simp only [Except.ok.injEq, Prod.mk.injEq] at h
    exact ⟨.null, h.1.symm, Or.inl rfl⟩
  · rw [if_neg h0] at h
    cases total with
    | num tq =>
      cases crashed with
      | num cq =>
        simp only [Except.ok.injEq, Prod.mk.injEq] at h
        exact ⟨.num (pyRound3 ((1 - cq / tq) * 100)), h.1.symm,
          Or.inr ⟨pyRound3 ((1 - cq / tq) * 100), rfl⟩⟩
      | null => exact Except.noConfusion h
      | str s => exact Except.noConfusion h
    | null => exact Except.noConfusion h
    | str s => exact Except.noConfusion h

/-- Every successful v2 normalization result comes from the shared tail. -/
theorem aggregate_query_results_v2_shape (data : List Row) (al : Option String)
    (rows : List Row) (t : List String)
    (h : aggregate_query_results_v2 data al = .ok (rows, t)) :
    ∃ total crashed, crashFreeRateRow total crashed al = .ok (rows, t) := by
  match data with
  | [] => exact ⟨.num 0, .num 0, h⟩
  | [row] =>
    simp only [aggregate_query_results_v2] at h
    split at h
    · exact Except.noConfusion h
    · rename_i total heqc
      split at h
      · exact Except.noConfusion h
      · rename_i crashed heqcr
        exact ⟨total, crashed, h⟩
  | a :: b :: rest => exact Except.noConfusion h

/-- Every successful v1 normalization result comes from the shared tail. -/
theorem aggregate_query_results_v1_shape (rr : Val → Option String)
    (ssKey : String) (data : List Row) (al : Option String)
    (rows : List Row) (t : List String)
    (h : aggregate_query_results_v1 rr ssKey data al = .ok (rows, t)) :
    ∃ total crashed t2, crashFreeRateRow total crashed al = .ok (rows, t2) := by
  unfold aggregate_query_results_v1 at h
  split at h
  · exact Except.noConfusion h
  · rename_i total crashed tele1 heqtr
    split at h
    · exact Except.noConfusion h
    · rename_i rows2 tele2 heq
      simp only [Except.ok.injEq, Prod.mk.injEq] at h
      obtain ⟨h1, h2⟩ := h
      subst h1
      exact ⟨total, crashed, tele2, heq⟩

/-- Every successful metrics normalization is a single row whose canonical
column holds null or a number. -/
theorem metrics_aggregate_shape (rr : Val → Option String) (ssKey : String)
    (data : List Row) (al : Option String) (rows : List Row) (tele : List String)
    (h : BaseMetricsEntitySubscription.aggregate_query_results rr ssKey data al =
      .ok (rows, tele)) :
    ∃ v, rows = [[(al.getD CRASH_RATE_ALERT_AGGREGATE_ALIAS, v)]] ∧
      (v = .null ∨ ∃ q, v = .num q) := by
  unfold BaseMetricsEntitySubscription.aggregate_query_results at h
  split at h
  · split at h
    · exact Except.noConfusion h
    · rename_i rows2 t2 hm
      simp only [Except.ok.injEq, Prod.mk.injEq] at h
      obtain ⟨total, crashed, hcf⟩ := aggregate_query_results_v2_shape data al rows2 t2 hm
      obtain ⟨v, hrows, hval⟩ := crashFreeRateRow_shape total crashed al rows2 t2 hcf
      exact ⟨v, by rw [← h.1, hrows], hval⟩
  · split at h
    · exact Except.noConfusion h
    · rename_i rows2 t2 hm
      simp only [Except.ok.injEq, Prod.mk.injEq] at h
      obtain ⟨total, crashed, t3, hcf⟩ :=
        aggregate_query_results_v1_shape rr ssKey data al rows2 t2 hm
      obtain ⟨v, hrows, hval⟩ := crashFreeRateRow_shape total crashed al rows2 t3 hcf
      exact ⟨v, by rw [← h.1, hrows], hval⟩

/-- C9 counterexample: the Events variant's normalization is a pass-through,
so on an empty batch it returns an empty sequence — not a sequence containing
exactly one mapping holding the canonical aggregate field. -/
theorem claim_c9_counterexample :
    EntitySubscription.aggregate_query_results (fun _ => none)
      (.events ⟨"count()", none⟩) [] none = .ok ([], [], []) ∧
    ([] : List Row).length ≠ 1 :=
  ⟨rfl, by simp⟩

/-- C9 (amended): for the Sessions and Metrics variants, every successful
call of `aggregate_query_results` returns a sequence containing exactly one
mapping holding the canonical aggregate field (the alias when given, else the
default), whose value is a number or null; the Events and Transactions
variants return their input unchanged, so the single-row shape holds there
only if the backend already supplies it. -/
theorem claim_c9_output_shape (rr : Val → Option String)
    (sub : EntitySubscription) (data out st : List Row) (tele : List String)
    (al : Option String)
    (hnp : sub.isPassThrough = false)
    (hok : EntitySubscription.aggregate_query_results rr sub data al =
      .ok (out, st, tele)) :
    out.length = 1 ∧
    ∃ v, rowGet (out.headD []) (al.getD CRASH_RATE_ALERT_AGGREGATE_ALIAS) = some v ∧
      (v = .null ∨ ∃ q, v = .num q) := by
  cases sub with
  | events e => simp [EntitySubscription.isPassThrough] at hnp
  | transactions e => simp [EntitySubscription.isPassThrough] at hnp
  | sessions s =>
    cases data with
    | nil =>
      simp [EntitySubscription.aggregate_query_results,
        SessionsEntitySubscription.aggregate_query_results] at hok
    | cons r t =>
      cases t with
      | cons r2 t2 =>
        simp [EntitySubscription.aggregate_query_results,
          SessionsEntitySubscription.aggregate_query_results] at hok
      | nil =>
        cases hv : rowGet r (al.getD CRASH_RATE_ALERT_AGGREGATE_ALIAS) with
        | none =>
          simp [EntitySubscription.aggregate_query_results,
            SessionsEntitySubscription.aggregate_query_results, hv] at hok
        | some v =>
          cases v with
          | null =>
            simp only [EntitySubscription.aggregate_query_results,
              SessionsEntitySubscription.aggregate_query_results, hv,
              Except.ok.injEq, Prod.mk.injEq] at hok
            obtain ⟨ho, hs, ht⟩ := hok
            subst ho
            exact ⟨rfl, .null, hv, Or.inl rfl⟩
          | num q =>
            simp only [EntitySubscription.aggregate_query_results,
              SessionsEntitySubscription.aggregate_query_results, hv,
              Except.ok.injEq, Prod.mk.injEq] at hok
            obtain ⟨ho, hs, ht⟩ := hok
            subst ho
            refine ⟨rfl, .num (pyRound3 ((1 - q) * 100)), ?_, Or.inr ⟨_, rfl⟩⟩
            simp [rowGet_setKey]
          | str s' =>
            simp [EntitySubscription.aggregate_query_results,
              SessionsEntitySubscription.aggregate_query_results, hv] at hok
  | metricsCounters s =>
    cases hm : BaseMetricsEntitySubscription.aggregate_query_results rr
        s.session_status data al with
    | error e =>
      simp only [EntitySubscription.aggregate_query_results, hm] at hok
      exact Except.noConfusion hok
    | ok p =>
      obtain ⟨rows, t⟩ := p
      simp only [EntitySubscription.aggregate_query_results, hm,
        Except.ok.injEq, Prod.mk.injEq] at hok
      obtain ⟨ho, hs, ht⟩ := hok
      subst ho
      obtain ⟨v, hrows, hval⟩ :=
        metrics_aggregate_shape rr s.session_status data al rows t hm
      subst hrows
      exact ⟨rfl, v, by simp [rowGet], hval⟩
  | metricsSets s =>
    cases hm : BaseMetricsEntitySubscription.aggregate_query_results rr
        s.session_status data al with
    | error e =>
      simp only [EntitySubscription.aggregate_query_results, hm] at hok
      exact Except.noConfusion hok
    | ok p =>
      obtain ⟨rows, t⟩ := p
      simp only [EntitySubscription.aggregate_query_results, hm,
        Except.ok.injEq, Prod.mk.injEq] at hok
      obtain ⟨ho, hs, ht⟩ := hok
      subst ho
      obtain ⟨v, hrows, hval⟩ :=
        metrics_aggregate_shape rr s.session_status data al rows t hm
      subst hrows
      exact ⟨rfl, v, by simp [rowGet], hval⟩

/-- C9 witness: the MetricsCounters variant on the empty batch returns
exactly one mapping holding the canonical field (with a null value). -/
theorem claim_c9_output_shape_witness :
    ([[(CRASH_RATE_ALERT_AGGREGATE_ALIAS, Val.null)]] : List Row).length = 1 ∧
    ∃ v, rowGet (([[(CRASH_RATE_ALERT_AGGREGATE_ALIAS, Val.null)]] : List Row).headD [])
        ((none : Option String).getD CRASH_RATE_ALERT_AGGREGATE_ALIAS) = some v ∧
      (v = .null ∨ ∃ q, v = .num q) :=
  claim_c9_output_shape (fun _ => none) (.metricsCounters ⟨"a", 60, 1, "ss"⟩) []
    [[(CRASH_RATE_ALERT_AGGREGATE_ALIAS, Val.null)]] []
    [metricsNoDataCounter, formatCounter "v1"] none rfl rfl

/-- A non-empty token never occurs in the empty input. -/
theorem hasTokAt_nil (tok : List Char) (htok : tok ≠ []) (i : ℕ) :
    ¬hasTokAt tok [] i := by
  unfold hasTokAt
  rw [List.drop_nil]
  cases tok with
  | nil => exact absurd rfl htok
  | cons a as => simp [tokLeads]

/-- The two searched tokens start with distinct characters, so they never
both match at the same position. -/
theorem tokLeads_sessions_not_users (x : List Char)
    (h : tokLeads "sessions".data x = true) : ¬tokLeads "users".data x = true := by
  cases x with
  | nil => exact absurd h (by decide)
  | cons c cs =>
    rw [show "sessions".data = 's' :: "essions".data from rfl] at h
    rw [show "users".data = 'u' :: "sers".data from rfl]
    simp only [tokLeads] at h ⊢
    by_cases hc : 's' = c
    · rw [if_neg (show ¬('u' = c) by rw [← hc]; decide)]
      simp
    · rw [if_neg hc] at h
      exact absurd h (by simp)

/-- `findCountCol` returns `"sessions"` exactly when `"sessions"` occurs and
no occurrence of either token starts earlier. -/
theorem findCountCol_sessions_iff (l : List Char) :
    findCountCol l = some "sessions" ↔
      ∃ i, hasTokAt "sessions".data l i ∧
        ∀ j, (hasTokAt "sessions".data l j ∨ hasTokAt "users".data l j) → i ≤ j := by
  induction l with
  | nil =>
    constructor
    · intro h
      exact Option.noConfusion h
    · rintro ⟨i, hti, -⟩
      exact absurd hti (hasTokAt_nil _ (by decide) i)
  | cons c cs ih =>
    by_cases hs : tokLeads "sessions".data (c :: cs) = true
    · constructor
      · intro _
        exact ⟨0, hs, fun j _ => Nat.zero_le j⟩
      · intro _
        simp [findCountCol, hs]
    · by_cases hu : tokLeads "users".data (c :: cs) = true
      · constructor
        · intro h
          simp [findCountCol, hs, hu] at h
        · rintro ⟨i, hti, hmin⟩
          have hi0 : i ≤ 0 := hmin 0 (Or.inr hu)
          have hi : i = 0 := Nat.le_zero.mp hi0
          subst hi
          exact absurd hti hs
      · have hstep : findCountCol (c :: cs) = findCountCol cs := by
          simp only [findCountCol, if_neg hs, if_neg hu]
        rw [hstep, ih]
        constructor
        · rintro ⟨i, hti, hmin⟩
          refine ⟨i + 1, hti, ?_⟩
          intro j hj
          cases j with
          | zero =>
            cases hj with
            | inl h0 => exact absurd h0 hs
            | inr h0 => exact absurd h0 hu
          | succ j' => exact Nat.succ_le_succ (hmin j' hj)
        · rintro ⟨i, hti, hmin⟩
          cases i with
          | zero => exact absurd hti hs
          | succ i' =>
            refine ⟨i', hti, ?_⟩
            intro j hj
            have := hmin (j + 1) hj
            omega

/-- `findCountCol` returns `"users"` exactly when `"users"` occurs and no
occurrence of either token starts earlier. -/
theorem findCountCol_users_iff (l : List Char) :
    findCountCol l = some "users" ↔
      ∃ i, hasTokAt "users".data l i ∧
        ∀ j, (hasTokAt "sessions".data l j ∨ hasTokAt "users".data l j) → i ≤ j := by
  induction l with
  | nil =>
    constructor
    · intro h
      exact Option.noConfusion h
    · rintro ⟨i, hti, -⟩
      exact absurd hti (hasTokAt_nil _ (by decide) i)
  | cons c cs ih =>
    by_cases hs : tokLeads "sessions".data (c :: cs) = true
    · constructor
      · intro h
        simp [findCountCol, hs] at h
      · rintro ⟨i, hti, hmin⟩
        have hi0 : i ≤ 0 := hmin 0 (Or.inl hs)
        have hi : i = 0 := Nat.le_zero.mp hi0
        subst hi
        exact absurd hti (tokLeads_sessions_not_users (c :: cs) hs)
    · by_cases hu : tokLeads "users".data (c :: cs) = true
      · constructor
        · intro _
          exact ⟨0, hu, fun j _ => Nat.zero_le j⟩
        · intro _
          simp [findCountCol, hs, hu]
      · have hstep : findCountCol (c :: cs) = findCountCol cs := by
          simp only [findCountCol, if_neg hs, if_neg hu]
        rw [hstep, ih]
        constructor
        · rintro ⟨i, hti, hmin⟩
          refine ⟨i + 1, hti, ?_⟩
          intro j hj
          cases j with
          | zero =>
            cases hj with
            | inl h0 => exact absurd h0 hs
            | inr h0 => exact absurd h0 hu
          | succ j' => exact Nat.succ_le_succ (hmin j' hj)
        · rintro ⟨i, hti, hmin⟩
          cases i with
          | zero => exact absurd hti hu
          | succ i' =>
            refine ⟨i', hti, ?_⟩
            intro j hj
            have := hmin (j + 1) hj
            omega

/-- C10: the Sessions variant's extra total-count column is derived from the
first occurrence of the substring `"sessions"` or `"users"` in the aggregate
text: the leftmost-occurring token is selected (the characterizations below),
and the built aggregation list carries `identity(<token>) AS
<session_count_alias>`; with no occurrence the build fails with
`UnsupportedQuerySubscription`.  In `percentage(users_crashed, sessions)` the
numerator's `users` occurs first, so `identity(users)` is produced — the
second (denominator) argument does not govern the choice. -/
theorem claim_c10_sessions_count_col (aggregate : String) :
    (findCountCol aggregate.data = some "sessions" ↔
      ∃ i, hasTokAt "sessions".data aggregate.data i ∧
        ∀ j, (hasTokAt "sessions".data aggregate.data j ∨
              hasTokAt "users".data aggregate.data j) → i ≤ j) ∧
    (findCountCol aggregate.data = some "users" ↔
      ∃ i, hasTokAt "users".data aggregate.data i ∧
        ∀ j, (hasTokAt "sessions".data aggregate.data j ∨
              hasTokAt "users".data aggregate.data j) → i ≤ j) ∧
    (∀ tok, findCountCol aggregate.data = some tok →
      sessionsBuildQueryAggregations aggregate =
        .ok [aggregate,
             "identity(" ++ tok ++ ") AS " ++ CRASH_RATE_ALERT_SESSION_COUNT_ALIAS]) ∧
    (findCountCol aggregate.data = none →
      sessionsBuildQueryAggregations aggregate = .error .unsupportedQuerySubscription) ∧
    sessionsBuildQueryAggregations "percentage(users_crashed, sessions)" =
      .ok ["percentage(users_crashed, sessions)",
           "identity(users) AS " ++ CRASH_RATE_ALERT_SESSION_COUNT_ALIAS] := by
  refine ⟨findCountCol_sessions_iff aggregate.data,
          findCountCol_users_iff aggregate.data, ?_, ?_, rfl⟩
  · intro tok htok
    unfold sessionsBuildQueryAggregations
    rw [htok]
  · intro hnone
    unfold sessionsBuildQueryAggregations
    rw [hnone]

/-- C10 witness: with `percentage(sessions_crashed, users)` the numerator's
`sessions` occurs first and `identity(sessions)` is produced. -/
theorem claim_c10_sessions_count_col_witness :
    sessionsBuildQueryAggregations "percentage(sessions_crashed, users)" =
      .ok ["percentage(sessions_crashed, users)",
           "identity(sessions) AS " ++ CRASH_RATE_ALERT_SESSION_COUNT_ALIAS] :=
  (claim_c10_sessions_count_col "percentage(sessions_crashed, users)").2.2.1
    "sessions" (by decide)
